import Mathlib

/-!
Verification model of the aidoc-server request pipeline: the domain data model,
the validation engine, the authorization gate, the three resource services
(Patient, MedicalHistory, Lifestyle) and the HTTP status mapping of the list
handlers, embedded shallowly from the Go sources.
-/

namespace Aidoc

/-- Decidable equality for Except results, so that concrete runs of the
model can be checked by evaluation. -/
instance instDecEqExcept {ε α : Type} [DecidableEq ε] [DecidableEq α] :
    DecidableEq (Except ε α) := by
  intro a b
  cases a <;> cases b
  case error.error x y =>
    exact if h : x = y then isTrue (by rw [h]) else isFalse (fun hh => h (by injection hh))
  case error.ok x y => exact isFalse (fun hh => Except.noConfusion hh)
  case ok.error x y => exact isFalse (fun hh => Except.noConfusion hh)
  case ok.ok x y =>
    exact if h : x = y then isTrue (by rw [h]) else isFalse (fun hh => h (by injection hh))

/-- Model of Go `time.Time` restricted to the observations the code makes:
`Year()`, `YearDay()`, ordering (`Before`) and the zero value (`IsZero`).
`frac` stands for the remaining precision below day granularity so that two
times in the same day can still differ. Go's zero time has Year() = 1 and
YearDay() = 1. -/
structure GoTime where
  year : Int
  yearDay : Int
  frac : Int
deriving DecidableEq, Repr

/-- Go zero `time.Time`: January 1, year 1. -/
def GoTime.zeroT : GoTime := ⟨1, 1, 0⟩

/-- `t.IsZero()` in Go. -/
def GoTime.isZero (t : GoTime) : Bool := t == GoTime.zeroT

/-- `t1.Before(t2)` in Go: strict chronological order, lexicographic in
(year, yearDay, sub-day remainder). -/
def GoTime.before (t1 t2 : GoTime) : Bool :=
  t1.year < t2.year ||
    (t1.year == t2.year && (t1.yearDay < t2.yearDay ||
      (t1.yearDay == t2.yearDay && t1.frac < t2.frac)))

/-- domain.Patient (internal/core/domain/patient.go). -/
structure Patient where
  patientID : Int
  userID : Int
  fullName : String
  age : Int
  dateOfBirth : GoTime
  sex : String
  phoneNumber : String
  emailAddress : String
  preferredCommunication : String
  socioeconomicStatus : String
  geographicLocation : String
  createdAt : GoTime
  updatedAt : GoTime
deriving DecidableEq, Repr

/-- domain.CreatePatientRequest. -/
structure CreatePatientRequest where
  userID : Int
  fullName : String
  age : Int
  dateOfBirth : GoTime
  sex : String
  phoneNumber : String
  emailAddress : String
  preferredCommunication : String
  socioeconomicStatus : String
  geographicLocation : String
deriving DecidableEq, Repr

/-- domain.UpdatePatientRequest. -/
structure UpdatePatientRequest where
  fullName : String
  age : Int
  dateOfBirth : GoTime
  sex : String
  phoneNumber : String
  emailAddress : String
  preferredCommunication : String
  socioeconomicStatus : String
  geographicLocation : String
deriving DecidableEq, Repr

/-- domain.MedicalHistoryEntry (internal/core/domain, medical history file). -/
structure MedicalHistoryEntry where
  patientMedicalHistoryID : Int
  patientID : Int
  condition : String
  diagnosisDate : GoTime
  status : String
  details : String
  createdAt : GoTime
  updatedAt : GoTime
deriving DecidableEq, Repr

/-- domain.CreateMedicalHistoryRequest. -/
structure CreateMedicalHistoryRequest where
  condition : String
  diagnosisDate : GoTime
  status : String
  details : String
deriving DecidableEq, Repr

/-- domain.UpdateMedicalHistoryRequest. -/
structure UpdateMedicalHistoryRequest where
  condition : String
  diagnosisDate : GoTime
  status : String
  details : String
deriving DecidableEq, Repr

/-- domain.LifestyleEntry (internal/core/domain/lifestyle.go). -/
structure LifestyleEntry where
  patientLifestyleID : Int
  patientID : Int
  lifestyleFactor : String
  value : String
  startDate : GoTime
  endDate : GoTime
  createdAt : GoTime
  updatedAt : GoTime
deriving DecidableEq, Repr

/-- domain.CreateLifestyleRequest. -/
structure CreateLifestyleRequest where
  lifestyleFactor : String
  value : String
  startDate : GoTime
  endDate : GoTime
deriving DecidableEq, Repr

/-- domain.UpdateLifestyleRequest. -/
structure UpdateLifestyleRequest where
  lifestyleFactor : String
  value : String
  startDate : GoTime
  endDate : GoTime
deriving DecidableEq, Repr

/-- The domain error values of internal/core/domain/errors.go, as a closed
variant type. `validationError` is domain.ValidationError (code, message,
details); `wrapped` models Go error wrapping via fmt.Errorf("...: %w", err);
`internalMsg` models any other opaque error (driver failures etc.). -/
inductive DomainError where
  | patientNotFound
  | medicalHistoryEntryNotFound
  | invalidInput
  | lifestyleEntryNotFound
  | forbidden
  | validationError (code : String) (message : String) (details : List String)
  | wrapped (msg : String) (inner : DomainError)
  | internalMsg (msg : String)
deriving DecidableEq, Repr

/-- Go `errors.Is(e, target)` for the sentinel errors above: equality modulo
unwrapping of fmt.Errorf `%w` wrapping. -/
def DomainError.isError : DomainError → DomainError → Bool
  | .wrapped m inner, target => (DomainError.wrapped m inner == target) || inner.isError target
  | e, target => e == target

/-- Go `errors.As(err, &*domain.ValidationError)`: extracts the (code, message,
details) of a ValidationError through wrapping, when there is one. -/
def DomainError.validationData : DomainError → Option (String × String × List String)
  | .validationError c m d => some (c, m, d)
  | .wrapped _ inner => inner.validationData
  | _ => none

/-! ## Validation engine

The services call the shared go-playground validator instance built by
config.InitValidator, which registers the custom rules of
internal/validation/validator.go: pastdate, dateformat, minage, phoneNumber,
and an override of oneof. Each request struct declares a per-field tag chain;
the library evaluates a field's tags in order, records the first failing tag
of that field, skips the rest of the chain on omitempty when the field holds
its zero value, and collects failures across all fields. A validator is
modelled as a function returning the list of (field name, failing tag) pairs
in struct field order. -/

/-- Char is a decimal digit. -/
def isDigitChar (c : Char) : Bool := decide ('0' ≤ c) && decide (c ≤ '9')

/-- validation.PhoneNumberValidator regex `^\+?[1-9]\d{1,14}$` (the empty
string is accepted by the rule itself, and is also skipped by omitempty
before the rule runs). -/
def phoneNumberOK (s : String) : Bool :=
  if s == "" then true
  else
    let cs := s.data
    let cs := match cs with
      | '+' :: rest => rest
      | l => l
    match cs with
    | [] => false
    | c :: rest =>
        decide ('1' ≤ c) && decide (c ≤ '9') &&
          decide (1 ≤ rest.length) && decide (rest.length ≤ 14) &&
          rest.all isDigitChar

/-- Go strings.Split on a one-character separator, over the character list
of the string. -/
def splitListOn (sep : Char) : List Char → List (List Char)
  | [] => [[]]
  | c :: rest =>
      let r := splitListOn sep rest
      if c == sep then [] :: r
      else
        match r with
        | h :: t => (c :: h) :: t
        | [] => [[c]]

/-- Characters trimmed by Go strings.TrimSpace. -/
def isSpaceChar (c : Char) : Bool := c == ' ' || c == '\t' || c == '\n' || c == '\r'

/-- Go strings.TrimSpace over a character list. -/
def trimSpaceList (cs : List Char) : List Char :=
  ((cs.dropWhile isSpaceChar).reverse.dropWhile isSpaceChar).reverse

/-- Modelled from the spec: the `email` built-in rule of the external
go-playground validator library (the library is not part of this repository).
The spec asks only for an email *shape* check — a non-empty local part, one
`@`, and a dotted non-empty domain. -/
def emailShapeOK (s : String) : Bool :=
  match splitListOn '@' s.data with
  | [lp, dom] =>
      let labels := splitListOn '.' dom
      !lp.isEmpty && decide (2 ≤ labels.length) && labels.all (fun l => !l.isEmpty)
  | _ => false

/-- validation.OneOfValidator, registered over the built-in `oneof`: splits
the tag parameter on commas (not spaces), trims each piece, and demands exact
equality with one of the pieces. -/
def oneOfOK (field : String) (param : String) : Bool :=
  (splitListOn ',' param.data).any (fun v => field.data == trimSpaceList v)

/-- validation.PastDateValidator applied to a time-typed field:
`date.Before(time.Now())`. -/
def pastdateOK (now : GoTime) (d : GoTime) : Bool := d.before now

/-- validation.DateFormatValidator applied to a time-typed field: the rule
type-asserts its value to string, the assertion fails for time.Time, and the
rule returns false. -/
def dateformatOnTime : Bool := false

/-- validation.MinimumAgeValidator: age ≥ 18. -/
def minageOK (age : Int) : Bool := decide (18 ≤ age)

/-- One field with tag chain `required` over a string. -/
def chainRequiredString (name : String) (v : String) : List (String × String) :=
  if v == "" then [(name, "required")] else []

/-- One field with tag chain `required` over an int. -/
def chainRequiredInt (name : String) (v : Int) : List (String × String) :=
  if v == 0 then [(name, "required")] else []

/-- The DateOfBirth tag chain required,pastdate,dateformat of
CreatePatientRequest, over the registered rules (dateformat always fails on a
time-typed field, so a non-zero past date still yields a failure). -/
def chainDobCreate (now : GoTime) (d : GoTime) : List (String × String) :=
  if d.isZero then [("DateOfBirth", "required")]
  else if !pastdateOK now d then [("DateOfBirth", "pastdate")]
  else if !dateformatOnTime then [("DateOfBirth", "dateformat")] else []

/-- The DateOfBirth tag chain omitempty,pastdate,dateformat of
UpdatePatientRequest. -/
def chainDobUpdate (now : GoTime) (d : GoTime) : List (String × String) :=
  if d.isZero then []
  else if !pastdateOK now d then [("DateOfBirth", "pastdate")]
  else if !dateformatOnTime then [("DateOfBirth", "dateformat")] else []

/-- domain.CreatePatientRequest tag table (internal/core/domain/patient.go),
evaluated against the registered rules. -/
def validateCreatePatient (now : GoTime) (r : CreatePatientRequest) :
    List (String × String) :=
  chainRequiredInt "UserID" r.userID ++
  chainRequiredString "FullName" r.fullName ++
  (if r.age == 0 then [] else if minageOK r.age then [] else [("Age", "minage")]) ++
  chainDobCreate now r.dateOfBirth ++
  (if r.sex == "" then [("Sex", "required")]
   else if oneOfOK r.sex "Male Female Other" then [] else [("Sex", "oneof")]) ++
  (if r.phoneNumber == "" then []
   else if phoneNumberOK r.phoneNumber then [] else [("PhoneNumber", "phoneNumber")]) ++
  (if r.emailAddress == "" then [("EmailAddress", "required")]
   else if emailShapeOK r.emailAddress then [] else [("EmailAddress", "email")]) ++
  (if r.preferredCommunication == "" then []
   else if oneOfOK r.preferredCommunication "Phone Email Text" then []
   else [("PreferredCommunication", "oneof")]) ++
  (if r.socioeconomicStatus == "" then []
   else if oneOfOK r.socioeconomicStatus "Low Middle High Decline to Answer" then []
   else [("SocioeconomicStatus", "oneof")])

/-- domain.UpdatePatientRequest tag table (FullName and GeographicLocation
carry no validate tag; DateOfBirth is omitempty,pastdate,dateformat). -/
def validateUpdatePatient (now : GoTime) (r : UpdatePatientRequest) :
    List (String × String) :=
  (if r.age == 0 then [] else if minageOK r.age then [] else [("Age", "minage")]) ++
  chainDobUpdate now r.dateOfBirth ++
  (if r.sex == "" then []
   else if oneOfOK r.sex "Male Female Other" then [] else [("Sex", "oneof")]) ++
  (if r.phoneNumber == "" then []
   else if phoneNumberOK r.phoneNumber then [] else [("PhoneNumber", "phoneNumber")]) ++
  (if r.emailAddress == "" then []
   else if emailShapeOK r.emailAddress then [] else [("EmailAddress", "email")]) ++
  (if r.preferredCommunication == "" then []
   else if oneOfOK r.preferredCommunication "Phone Email Text" then []
   else [("PreferredCommunication", "oneof")]) ++
  (if r.socioeconomicStatus == "" then []
   else if oneOfOK r.socioeconomicStatus "Low Middle High Decline to Answer" then []
   else [("SocioeconomicStatus", "oneof")])

/-- domain.CreateMedicalHistoryRequest tag table. -/
def validateCreateMedicalHistory (now : GoTime) (r : CreateMedicalHistoryRequest) :
    List (String × String) :=
  chainRequiredString "Condition" r.condition ++
  (if r.diagnosisDate.isZero then []
   else if pastdateOK now r.diagnosisDate then [] else [("DiagnosisDate", "pastdate")]) ++
  (if r.status == "" then [("Status", "required")]
   else if oneOfOK r.status "Active Inactive Resolved" then [] else [("Status", "oneof")])

/-- domain.UpdateMedicalHistoryRequest tag table (Condition and Details carry
no validate tag). -/
def validateUpdateMedicalHistory (now : GoTime) (r : UpdateMedicalHistoryRequest) :
    List (String × String) :=
  (if r.diagnosisDate.isZero then []
   else if pastdateOK now r.diagnosisDate then [] else [("DiagnosisDate", "pastdate")]) ++
  (if r.status == "" then []
   else if oneOfOK r.status "Active Inactive Resolved" then [] else [("Status", "oneof")])

/-- domain.CreateLifestyleRequest tag table (only LifestyleFactor is tagged,
with `required`). -/
def validateCreateLifestyle (r : CreateLifestyleRequest) : List (String × String) :=
  chainRequiredString "LifestyleFactor" r.lifestyleFactor

/-- domain.UpdateLifestyleRequest tag table: no field carries a validate tag,
so validation never fails. -/
def validateUpdateLifestyle (_ : UpdateLifestyleRequest) : List (String × String) := []

/-- The detail strings the Patient and MedicalHistory services build from
validator failures: fmt.Sprintf("Field %s failed validation for tag %s"). -/
def detailStrings (fs : List (String × String)) : List String :=
  fs.map (fun p => "Field " ++ p.1 ++ " failed validation for tag " ++ p.2)

/-! ## Partial-update merge

Each Update service overwrites on the loaded entity exactly the request
fields that hold a non-zero value, one independent `if` per field; fields are
disjoint, so the sequential Go assignments equal this simultaneous record
update. -/

/-- Field merge of PatientService.UpdatePatient. -/
def mergePatient (p : Patient) (r : UpdatePatientRequest) : Patient :=
  { p with
    fullName := if r.fullName != "" then r.fullName else p.fullName
    age := if r.age != 0 then r.age else p.age
    dateOfBirth := if !r.dateOfBirth.isZero then r.dateOfBirth else p.dateOfBirth
    sex := if r.sex != "" then r.sex else p.sex
    phoneNumber := if r.phoneNumber != "" then r.phoneNumber else p.phoneNumber
    emailAddress := if r.emailAddress != "" then r.emailAddress else p.emailAddress
    preferredCommunication :=
      if r.preferredCommunication != "" then r.preferredCommunication
      else p.preferredCommunication
    socioeconomicStatus :=
      if r.socioeconomicStatus != "" then r.socioeconomicStatus
      else p.socioeconomicStatus
    geographicLocation :=
      if r.geographicLocation != "" then r.geographicLocation
      else p.geographicLocation }

/-- Field merge of MedicalHistoryService.UpdateMedicalHistoryEntry. -/
def mergeMedicalHistory (e : MedicalHistoryEntry) (r : UpdateMedicalHistoryRequest) :
    MedicalHistoryEntry :=
  { e with
    condition := if r.condition != "" then r.condition else e.condition
    diagnosisDate := if !r.diagnosisDate.isZero then r.diagnosisDate else e.diagnosisDate
    status := if r.status != "" then r.status else e.status
    details := if r.details != "" then r.details else e.details }

/-- Field merge of LifestyleService.UpdateLifestyleEntry. -/
def mergeLifestyle (e : LifestyleEntry) (r : UpdateLifestyleRequest) : LifestyleEntry :=
  { e with
    lifestyleFactor := if r.lifestyleFactor != "" then r.lifestyleFactor else e.lifestyleFactor
    value := if r.value != "" then r.value else e.value
    startDate := if !r.startDate.isZero then r.startDate else e.startDate
    endDate := if !r.endDate.isZero then r.endDate else e.endDate }

/-! ## Repository layer

The relational store is a record of three tables. Repository calls are logged
as events so that "the mutating method is never invoked" and "the authorize
function is never called" are statements about the emitted trace. -/

/-- The three tables of the Postgres schema. -/
structure Store where
  patients : List Patient
  mhEntries : List MedicalHistoryEntry
  lsEntries : List LifestyleEntry
deriving DecidableEq, Repr

/-- One downstream call made by a service: a repository method or the
injected authorize function. -/
inductive Event where
  | getPatientCall (pid : Int)
  | pCreateCall
  | pUpdateCall (pid : Int)
  | lsListCall (pid : Int)
  | lsGetCall (id : Int)
  | lsCreateCall
  | lsUpdateCall (id : Int)
  | lsDeleteCall (id : Int)
  | mhListCall (pid : Int)
  | mhGetCall (id : Int)
  | mhCreateCall
  | mhUpdateCall (id : Int)
  | mhDeleteCall (id : Int)
  | authorizeCall (pid : Int)
deriving DecidableEq, Repr

/-- Repository methods that write to the store. -/
def Event.isMutator : Event → Bool
  | .pCreateCall | .pUpdateCall _ | .lsCreateCall | .lsUpdateCall _ | .lsDeleteCall _
  | .mhCreateCall | .mhUpdateCall _ | .mhDeleteCall _ => true
  | _ => false

/-- Calls to the injected authorize function. -/
def Event.isAuth : Event → Bool
  | .authorizeCall _ => true
  | _ => false

/-- Next SERIAL value for a table, given the ids already present. -/
def nextSerial (ids : List Int) : Int := ids.foldr max 0 + 1

/-- Modelled from the spec: PatientRepository.GetPatient — the Postgres
implementation of the Patient repository is not among the sources (only its
port, mocks and tests are); the spec requires repositories to map the "no
such row" condition of `SELECT ... WHERE patient_id = $1` to the domain
not-found error. -/
def patientRepoGetPatient (st : Store) (pid : Int) : Except DomainError Patient :=
  match st.patients.find? (fun p => p.patientID == pid) with
  | some p => .ok p
  | none => .error .patientNotFound

/-- Modelled from the spec: PatientRepository.CreatePatient — implementation
absent from the sources; per the spec and queries/patient.sql the insert
assigns a fresh SERIAL id and server timestamps and returns the row. -/
def patientRepoCreatePatient (st : Store) (now : GoTime) (p : Patient) :
    Except DomainError (Patient × Store) :=
  let newP := { p with
    patientID := nextSerial (st.patients.map (fun x => x.patientID))
    createdAt := now
    updatedAt := now }
  .ok (newP, { st with patients := st.patients ++ [newP] })

/-- Modelled from the spec: PatientRepository.UpdatePatient — implementation
absent from the sources; queries/patient.sql overwrites the nine demographic
columns and sets updated_at = NOW() on the addressed row, and the spec maps
the "no such row" outcome of the RETURNING clause to the domain not-found
error. -/
def patientRepoUpdatePatient (st : Store) (now : GoTime) (pid : Int) (p : Patient) :
    Except DomainError (Patient × Store) :=
  match st.patients.find? (fun x => x.patientID == pid) with
  | none => .error .patientNotFound
  | some row =>
      let newRow := { row with
        fullName := p.fullName
        age := p.age
        dateOfBirth := p.dateOfBirth
        sex := p.sex
        phoneNumber := p.phoneNumber
        emailAddress := p.emailAddress
        preferredCommunication := p.preferredCommunication
        socioeconomicStatus := p.socioeconomicStatus
        geographicLocation := p.geographicLocation
        updatedAt := now }
      .ok (newRow,
        { st with patients :=
            st.patients.map (fun x => if x.patientID == pid then newRow else x) })

/-- LifestyleRepositoryImpl.GetLifestyleEntries: selects by patient id and
maps a zero-length result set to domain.ErrLifestyleEntryNotFound. -/
def lifestyleRepoGetEntries (st : Store) (pid : Int) :
    Except DomainError (List LifestyleEntry) :=
  let entries := st.lsEntries.filter (fun e => e.patientID == pid)
  if entries.length == 0 then .error .lifestyleEntryNotFound else .ok entries

/-- LifestyleRepositoryImpl.GetLifestyleEntry: sql.ErrNoRows maps to
domain.ErrLifestyleEntryNotFound. -/
def lifestyleRepoGetEntry (st : Store) (id : Int) : Except DomainError LifestyleEntry :=
  match st.lsEntries.find? (fun e => e.patientLifestyleID == id) with
  | some e => .ok e
  | none => .error .lifestyleEntryNotFound

/-- LifestyleRepositoryImpl.CreateLifestyleEntry over queries/lifestyle.sql:
insert with fresh SERIAL id and server timestamps. -/
def lifestyleRepoCreateEntry (st : Store) (now : GoTime) (e : LifestyleEntry) :
    Except DomainError (LifestyleEntry × Store) :=
  let newE := { e with
    patientLifestyleID := nextSerial (st.lsEntries.map (fun x => x.patientLifestyleID))
    createdAt := now
    updatedAt := now }
  .ok (newE, { st with lsEntries := st.lsEntries ++ [newE] })

/-- LifestyleRepositoryImpl.UpdateLifestyleEntry: overwrites the factor,
value and date columns of the addressed row, sets updated_at = NOW(), and
maps sql.ErrNoRows to domain.ErrLifestyleEntryNotFound. -/
def lifestyleRepoUpdateEntry (st : Store) (now : GoTime) (id : Int) (e : LifestyleEntry) :
    Except DomainError (LifestyleEntry × Store) :=
  match st.lsEntries.find? (fun x => x.patientLifestyleID == id) with
  | none => .error .lifestyleEntryNotFound
  | some row =>
      let newRow := { row with
        lifestyleFactor := e.lifestyleFactor
        value := e.value
        startDate := e.startDate
        endDate := e.endDate
        updatedAt := now }
      .ok (newRow,
        { st with lsEntries :=
            st.lsEntries.map (fun x => if x.patientLifestyleID == id then newRow else x) })

/-- LifestyleRepositoryImpl.DeleteLifestyleEntry: a sqlc :exec DELETE, which
succeeds whether or not the row exists. -/
def lifestyleRepoDeleteEntry (st : Store) (id : Int) : Except DomainError Store :=
  .ok { st with lsEntries := st.lsEntries.filter (fun x => !(x.patientLifestyleID == id)) }

/-- MedicalHistoryRepositoryImpl.GetMedicalHistoryEntries: selects by patient
id and maps a zero-length result set to domain.ErrMedicalHistoryEntryNotFound. -/
def mhRepoGetEntries (st : Store) (pid : Int) :
    Except DomainError (List MedicalHistoryEntry) :=
  let entries := st.mhEntries.filter (fun e => e.patientID == pid)
  if entries.length == 0 then .error .medicalHistoryEntryNotFound else .ok entries

/-- MedicalHistoryRepositoryImpl.GetMedicalHistoryEntry: sql.ErrNoRows maps
to domain.ErrMedicalHistoryEntryNotFound. -/
def mhRepoGetEntry (st : Store) (id : Int) : Except DomainError MedicalHistoryEntry :=
  match st.mhEntries.find? (fun e => e.patientMedicalHistoryID == id) with
  | some e => .ok e
  | none => .error .medicalHistoryEntryNotFound

/-- MedicalHistoryRepositoryImpl.CreateMedicalHistoryEntry: insert with fresh
SERIAL id and server timestamps. -/
def mhRepoCreateEntry (st : Store) (now : GoTime) (e : MedicalHistoryEntry) :
    Except DomainError (MedicalHistoryEntry × Store) :=
  let newE := { e with
    patientMedicalHistoryID :=
      nextSerial (st.mhEntries.map (fun x => x.patientMedicalHistoryID))
    createdAt := now
    updatedAt := now }
  .ok (newE, { st with mhEntries := st.mhEntries ++ [newE] })

/-- MedicalHistoryRepositoryImpl.UpdateMedicalHistoryEntry: overwrites the
condition, diagnosis date, status and details columns of the addressed row,
sets updated_at = NOW(), and maps sql.ErrNoRows to
domain.ErrMedicalHistoryEntryNotFound. -/
def mhRepoUpdateEntry (st : Store) (now : GoTime) (id : Int) (e : MedicalHistoryEntry) :
    Except DomainError (MedicalHistoryEntry × Store) :=
  match st.mhEntries.find? (fun x => x.patientMedicalHistoryID == id) with
  | none => .error .medicalHistoryEntryNotFound
  | some row =>
      let newRow := { row with
        condition := e.condition
        diagnosisDate := e.diagnosisDate
        status := e.status
        details := e.details
        updatedAt := now }
      .ok (newRow,
        { st with mhEntries :=
            st.mhEntries.map (fun x => if x.patientMedicalHistoryID == id then newRow else x) })

/-- MedicalHistoryRepositoryImpl.DeleteMedicalHistoryEntry: a sqlc :exec
DELETE, which succeeds whether or not the row exists. -/
def mhRepoDeleteEntry (st : Store) (id : Int) : Except DomainError Store :=
  .ok { st with mhEntries := st.mhEntries.filter (fun x => !(x.patientMedicalHistoryID == id)) }

/-! ## Resource services

Each service operation is the Go method with context and logging dropped:
same validation, same gating order, same error translation, same merge. The
injected authorize function has the type the Go service field has —
`func(context.Context, int) bool` — i.e. `Int → Bool` here. Operations
return the service result, the store after the call, and the trace of
downstream calls in order. -/

/-- Result, post-state and downstream-call trace of one service operation. -/
structure SvcOut (α : Type) where
  result : Except DomainError α
  store : Store
  events : List Event
deriving Repr

/-- LifestyleService.CreateLifestyleEntry. -/
def createLifestyleEntry (authorize : Int → Bool) (now : GoTime) (st : Store)
    (patientID : Int) (req : CreateLifestyleRequest) : SvcOut LifestyleEntry :=
  let _ := authorize
  if validateCreateLifestyle req != [] then ⟨.error .invalidInput, st, []⟩
  else
    match patientRepoGetPatient st patientID with
    | .error e =>
        if e.isError .patientNotFound then
          ⟨.error .patientNotFound, st, [.getPatientCall patientID]⟩
        else
          ⟨.error (.wrapped "failed to check patient existence" e), st,
            [.getPatientCall patientID]⟩
    | .ok _ =>
        let entry : LifestyleEntry :=
          { patientLifestyleID := 0
            patientID := patientID
            lifestyleFactor := req.lifestyleFactor
            value := req.value
            startDate := req.startDate
            endDate := req.endDate
            createdAt := GoTime.zeroT
            updatedAt := GoTime.zeroT }
        match lifestyleRepoCreateEntry st now entry with
        | .error e =>
            ⟨.error (.wrapped "create lifestyle entry error" e), st,
              [.getPatientCall patientID, .lsCreateCall]⟩
        | .ok (newEntry, st2) =>
            ⟨.ok newEntry, st2, [.getPatientCall patientID, .lsCreateCall]⟩

/-- LifestyleService.GetLifestyleEntries. The repository already turns an
empty result set into ErrLifestyleEntryNotFound (which this service wraps);
the service's own `len(entries) == 0` check repeats the conversion. -/
def getLifestyleEntries (authorize : Int → Bool) (st : Store) (patientID : Int) :
    SvcOut (List LifestyleEntry) :=
  let _ := authorize
  match patientRepoGetPatient st patientID with
  | .error e =>
      if e.isError .patientNotFound then
        ⟨.error .patientNotFound, st, [.getPatientCall patientID]⟩
      else
        ⟨.error (.wrapped "failed to check patient existence" e), st,
          [.getPatientCall patientID]⟩
  | .ok _ =>
      match lifestyleRepoGetEntries st patientID with
      | .error e =>
          ⟨.error (.wrapped "get lifestyle entries error" e), st,
            [.getPatientCall patientID, .lsListCall patientID]⟩
      | .ok entries =>
          if entries.length == 0 then
            ⟨.error .lifestyleEntryNotFound, st,
              [.getPatientCall patientID, .lsListCall patientID]⟩
          else
            ⟨.ok entries, st, [.getPatientCall patientID, .lsListCall patientID]⟩

/-- LifestyleService.GetLifestyleEntry. -/
def getLifestyleEntry (authorize : Int → Bool) (st : Store) (entryID : Int) :
    SvcOut LifestyleEntry :=
  let _ := authorize
  match lifestyleRepoGetEntry st entryID with
  | .error e =>
      if e.isError .lifestyleEntryNotFound then
        ⟨.error .lifestyleEntryNotFound, st, [.lsGetCall entryID]⟩
      else
        ⟨.error (.wrapped "get lifestyle entry error" e), st, [.lsGetCall entryID]⟩
  | .ok entry => ⟨.ok entry, st, [.lsGetCall entryID]⟩

/-- LifestyleService.UpdateLifestyleEntry. -/
def updateLifestyleEntry (authorize : Int → Bool) (now : GoTime) (st : Store)
    (entryID : Int) (req : UpdateLifestyleRequest) : SvcOut LifestyleEntry :=
  if validateUpdateLifestyle req != [] then ⟨.error .invalidInput, st, []⟩
  else
    match lifestyleRepoGetEntry st entryID with
    | .error e =>
        if e.isError .lifestyleEntryNotFound then
          ⟨.error .lifestyleEntryNotFound, st, [.lsGetCall entryID]⟩
        else
          ⟨.error (.wrapped "failed to retrieve existing entry" e), st,
            [.lsGetCall entryID]⟩
    | .ok existingEntry =>
        if !authorize existingEntry.patientID then
          ⟨.error .forbidden, st,
            [.lsGetCall entryID, .authorizeCall existingEntry.patientID]⟩
        else
          let merged := mergeLifestyle existingEntry req
          match lifestyleRepoUpdateEntry st now entryID merged with
          | .error e =>
              ⟨if e.isError .lifestyleEntryNotFound then .error .lifestyleEntryNotFound
                else .error (.wrapped "update lifestyle entry error" e), st,
                [.lsGetCall entryID, .authorizeCall existingEntry.patientID,
                  .lsUpdateCall entryID]⟩
          | .ok (entry, st2) =>
              ⟨.ok entry, st2,
                [.lsGetCall entryID, .authorizeCall existingEntry.patientID,
                  .lsUpdateCall entryID]⟩

/-- LifestyleService.DeleteLifestyleEntry. -/
def deleteLifestyleEntry (authorize : Int → Bool) (st : Store) (entryID : Int) :
    SvcOut Unit :=
  match lifestyleRepoGetEntry st entryID with
  | .error e =>
      if e.isError .lifestyleEntryNotFound then
        ⟨.error .lifestyleEntryNotFound, st, [.lsGetCall entryID]⟩
      else
        ⟨.error (.wrapped "failed to retrieve entry before deleting" e), st,
          [.lsGetCall entryID]⟩
  | .ok existingEntry =>
      if !authorize existingEntry.patientID then
        ⟨.error .forbidden, st,
          [.lsGetCall entryID, .authorizeCall existingEntry.patientID]⟩
      else
        match lifestyleRepoDeleteEntry st entryID with
        | .error e =>
            ⟨if e.isError .lifestyleEntryNotFound then .error .lifestyleEntryNotFound
              else .error (.wrapped "delete lifestyle entry error" e), st,
              [.lsGetCall entryID, .authorizeCall existingEntry.patientID,
                .lsDeleteCall entryID]⟩
        | .ok st2 =>
            ⟨.ok (), st2,
              [.lsGetCall entryID, .authorizeCall existingEntry.patientID,
                .lsDeleteCall entryID]⟩

/-- MedicalHistoryService.CreateMedicalHistoryEntry. -/
def createMedicalHistoryEntry (authorize : Int → Bool) (now : GoTime) (st : Store)
    (patientID : Int) (req : CreateMedicalHistoryRequest) : SvcOut MedicalHistoryEntry :=
  let _ := authorize
  let failures := validateCreateMedicalHistory now req
  if failures != [] then
    ⟨.error (.validationError "INVALID_MEDICAL_HISTORY_DATA" "Validation errors occurred"
      (detailStrings failures)), st, []⟩
  else
    match patientRepoGetPatient st patientID with
    | .error e =>
        if e.isError .patientNotFound then
          ⟨.error .patientNotFound, st, [.getPatientCall patientID]⟩
        else
          ⟨.error (.wrapped "failed to check patient existence" e), st,
            [.getPatientCall patientID]⟩
    | .ok _ =>
        let entry : MedicalHistoryEntry :=
          { patientMedicalHistoryID := 0
            patientID := patientID
            condition := req.condition
            diagnosisDate := req.diagnosisDate
            status := req.status
            details := req.details
            createdAt := GoTime.zeroT
            updatedAt := GoTime.zeroT }
        match mhRepoCreateEntry st now entry with
        | .error e =>
            ⟨.error (.wrapped "create medical history entry error" e), st,
              [.getPatientCall patientID, .mhCreateCall]⟩
        | .ok (createdEntry, st2) =>
            ⟨.ok createdEntry, st2, [.getPatientCall patientID, .mhCreateCall]⟩

/-- MedicalHistoryService.GetMedicalHistoryEntries. The empty-to-not-found
conversion lives in the repository; the service passes
ErrMedicalHistoryEntryNotFound through unwrapped. -/
def getMedicalHistoryEntries (authorize : Int → Bool) (st : Store) (patientID : Int) :
    SvcOut (List MedicalHistoryEntry) :=
  let _ := authorize
  match patientRepoGetPatient st patientID with
  | .error e =>
      if e.isError .patientNotFound then
        ⟨.error .patientNotFound, st, [.getPatientCall patientID]⟩
      else
        ⟨.error (.wrapped "failed to check patient existence" e), st,
          [.getPatientCall patientID]⟩
  | .ok _ =>
      match mhRepoGetEntries st patientID with
      | .error e =>
          if e.isError .medicalHistoryEntryNotFound then
            ⟨.error .medicalHistoryEntryNotFound, st,
              [.getPatientCall patientID, .mhListCall patientID]⟩
          else
            ⟨.error (.wrapped "get medical history entries error" e), st,
              [.getPatientCall patientID, .mhListCall patientID]⟩
      | .ok entries =>
          ⟨.ok entries, st, [.getPatientCall patientID, .mhListCall patientID]⟩

/-- MedicalHistoryService.GetMedicalHistoryEntry. -/
def getMedicalHistoryEntry (authorize : Int → Bool) (st : Store) (entryID : Int) :
    SvcOut MedicalHistoryEntry :=
  let _ := authorize
  match mhRepoGetEntry st entryID with
  | .error e =>
      if e.isError .medicalHistoryEntryNotFound then
        ⟨.error .medicalHistoryEntryNotFound, st, [.mhGetCall entryID]⟩
      else
        ⟨.error (.wrapped "get medical history entry error" e), st, [.mhGetCall entryID]⟩
  | .ok entry => ⟨.ok entry, st, [.mhGetCall entryID]⟩

/-- MedicalHistoryService.UpdateMedicalHistoryEntry. -/
def updateMedicalHistoryEntry (authorize : Int → Bool) (now : GoTime) (st : Store)
    (entryID : Int) (req : UpdateMedicalHistoryRequest) : SvcOut MedicalHistoryEntry :=
  let failures := validateUpdateMedicalHistory now req
  if failures != [] then
    ⟨.error (.validationError "INVALID_MEDICAL_HISTORY_DATA" "Validation errors occurred"
      (detailStrings failures)), st, []⟩
  else
    match mhRepoGetEntry st entryID with
    | .error e =>
        if e.isError .medicalHistoryEntryNotFound then
          ⟨.error .medicalHistoryEntryNotFound, st, [.mhGetCall entryID]⟩
        else
          ⟨.error (.wrapped "failed to retrieve existing medical history entry" e), st,
            [.mhGetCall entryID]⟩
    | .ok existingEntry =>
        if !authorize existingEntry.patientID then
          ⟨.error .forbidden, st,
            [.mhGetCall entryID, .authorizeCall existingEntry.patientID]⟩
        else
          let merged := mergeMedicalHistory existingEntry req
          match mhRepoUpdateEntry st now entryID merged with
          | .error e =>
              ⟨.error (.wrapped "update medical history entry error" e), st,
                [.mhGetCall entryID, .authorizeCall existingEntry.patientID,
                  .mhUpdateCall entryID]⟩
          | .ok (updatedEntry, st2) =>
              ⟨.ok updatedEntry, st2,
                [.mhGetCall entryID, .authorizeCall existingEntry.patientID,
                  .mhUpdateCall entryID]⟩

/-- MedicalHistoryService.DeleteMedicalHistoryEntry. -/
def deleteMedicalHistoryEntry (authorize : Int → Bool) (st : Store) (entryID : Int) :
    SvcOut Unit :=
  match mhRepoGetEntry st entryID with
  | .error e =>
      if e.isError .medicalHistoryEntryNotFound then
        ⟨.error .medicalHistoryEntryNotFound, st, [.mhGetCall entryID]⟩
      else
        ⟨.error (.wrapped "failed to retrieve medical history entry before deletion" e),
          st, [.mhGetCall entryID]⟩
  | .ok existingEntry =>
      if !authorize existingEntry.patientID then
        ⟨.error .forbidden, st,
          [.mhGetCall entryID, .authorizeCall existingEntry.patientID]⟩
      else
        match mhRepoDeleteEntry st entryID with
        | .error e =>
            ⟨if e.isError .medicalHistoryEntryNotFound then
                .error .medicalHistoryEntryNotFound
              else .error (.wrapped "delete medical history entry error" e), st,
              [.mhGetCall entryID, .authorizeCall existingEntry.patientID,
                .mhDeleteCall entryID]⟩
        | .ok st2 =>
            ⟨.ok (), st2,
              [.mhGetCall entryID, .authorizeCall existingEntry.patientID,
                .mhDeleteCall entryID]⟩

/-- The age/date-of-birth consistency test shared by PatientService.Create
and Update: expected age is current year minus birth year, decremented when
the current day-of-year has not yet reached the birth day-of-year. -/
def expectedAge (now dob : GoTime) : Int :=
  now.year - dob.year - (if now.yearDay < dob.yearDay then 1 else 0)

/-- PatientService.CreatePatient. -/
def createPatient (now : GoTime) (st : Store) (req : CreatePatientRequest) :
    SvcOut Patient :=
  let failures := validateCreatePatient now req
  if failures != [] then
    ⟨.error (.validationError "INVALID_PATIENT_DATA" "Validation errors occurred"
      (detailStrings failures)), st, []⟩
  else if req.age != 0 && !req.dateOfBirth.isZero &&
      expectedAge now req.dateOfBirth != req.age then
    ⟨.error (.validationError "INCONSISTENT_DATA" "Age and DateOfBirth are inconsistent"
      []), st, []⟩
  else
    let patient : Patient :=
      { patientID := 0
        userID := req.userID
        fullName := req.fullName
        age := req.age
        dateOfBirth := req.dateOfBirth
        sex := req.sex
        phoneNumber := req.phoneNumber
        emailAddress := req.emailAddress
        preferredCommunication := req.preferredCommunication
        socioeconomicStatus := req.socioeconomicStatus
        geographicLocation := req.geographicLocation
        createdAt := GoTime.zeroT
        updatedAt := GoTime.zeroT }
    match patientRepoCreatePatient st now patient with
    | .error e => ⟨.error (.wrapped "create patient error" e), st, [.pCreateCall]⟩
    | .ok (createdPatient, st2) => ⟨.ok createdPatient, st2, [.pCreateCall]⟩

/-- PatientService.GetPatient. -/
def getPatient (st : Store) (patientID : Int) : SvcOut Patient :=
  match patientRepoGetPatient st patientID with
  | .error e =>
      if e.isError .patientNotFound then
        ⟨.error .patientNotFound, st, [.getPatientCall patientID]⟩
      else
        ⟨.error (.wrapped "get patient error" e), st, [.getPatientCall patientID]⟩
  | .ok p => ⟨.ok p, st, [.getPatientCall patientID]⟩

/-- PatientService.UpdatePatient. The consistency check reads only the two
request fields; any failure of the existence lookup is wrapped without a
not-found special case. -/
def updatePatient (now : GoTime) (st : Store) (patientID : Int)
    (req : UpdatePatientRequest) : SvcOut Patient :=
  let failures := validateUpdatePatient now req
  if failures != [] then
    ⟨.error (.validationError "INVALID_PATIENT_DATA" "Validation errors occurred"
      (detailStrings failures)), st, []⟩
  else if req.age != 0 && !req.dateOfBirth.isZero &&
      expectedAge now req.dateOfBirth != req.age then
    ⟨.error (.validationError "INCONSISTENT_DATA" "Age and DateOfBirth are inconsistent"
      []), st, []⟩
  else
    match patientRepoGetPatient st patientID with
    | .error e =>
        ⟨.error (.wrapped "failed to get existing patient" e), st,
          [.getPatientCall patientID]⟩
    | .ok existingPatient =>
        let merged := mergePatient existingPatient req
        match patientRepoUpdatePatient st now patientID merged with
        | .error e =>
            ⟨.error (.wrapped "update patient error" e), st,
              [.getPatientCall patientID, .pUpdateCall patientID]⟩
        | .ok (updatedPatient, st2) =>
            ⟨.ok updatedPatient, st2,
              [.getPatientCall patientID, .pUpdateCall patientID]⟩

/-! ## Authorization gate (internal/auth, authClient.Authorize)

The Clerk profile is observed only through its PublicMetadata map, modelled
as an association list of string keys to string values. The external
identity-provider lookup (`clerk.User.GetUser`) is a parameter: either the
resolved profile or the provider's error. -/

/-- The caller profile returned by the identity provider. -/
structure ClerkUser where
  publicMetadata : List (String × String)
deriving DecidableEq, Repr

/-- fmt.Sprint of the PublicMetadata map: "map[k1:v1 k2:v2]". -/
def renderMetadata (md : List (String × String)) : String :=
  "map[" ++ String.intercalate " " (md.map (fun kv => kv.1 ++ ":" ++ kv.2)) ++ "]"

/-- strings.Contains: `needle` occurs as a contiguous substring of `hay`. -/
def strContainsSub (hay needle : String) : Bool :=
  hay.data.tails.any (fun t => needle.data.isPrefixOf t)

/-- authClient.Authorize: self-access first (fmt.Sprint(patientID) == userID,
no provider call), then the provider lookup whose error propagates, then the
loop over metadata values looking for "physician" or "clerk", then the
strings.Contains check for "patient:read_all" on the rendered map, else deny. -/
def authClientAuthorize (userID : String) (patientID : Int)
    (provider : Except String ClerkUser) : Except String Bool :=
  if toString patientID == userID then .ok true
  else
    match provider with
    | .error e => .error e
    | .ok clerkUser =>
        if clerkUser.publicMetadata.any
            (fun kv => kv.2 == "physician" || kv.2 == "clerk") then .ok true
        else if strContainsSub (renderMetadata clerkUser.publicMetadata)
            "patient:read_all" then .ok true
        else .ok false

/-! ## List handlers (api/handler)

Only the status-code mapping of the two list endpoints is modelled: it is
where the two resources diverge on the empty-collection outcome. -/

/-- Response body shape of a list endpoint. -/
inductive RespBody where
  | lsJson (es : List LifestyleEntry)
  | mhJson (es : List MedicalHistoryEntry)
  | emptyArray
  | errBody
deriving DecidableEq, Repr

/-- LifestyleHandler.GetLifestyleEntries status mapping: ErrPatientNotFound →
404, ErrLifestyleEntryNotFound → 200 with an empty slice, default → 500. -/
def getLifestyleEntriesHandler (authorize : Int → Bool) (st : Store) (patientID : Int) :
    Nat × RespBody :=
  match (getLifestyleEntries authorize st patientID).result with
  | .ok entries => (200, .lsJson entries)
  | .error err =>
      if err.isError .patientNotFound then (404, .errBody)
      else if err.isError .lifestyleEntryNotFound then (200, .emptyArray)
      else (500, .errBody)

/-- MedicalHistoryHandler.GetMedicalHistoryEntries status mapping:
ErrMedicalHistoryEntryNotFound → 404, ErrPatientNotFound → 404, default →
500. -/
def getMedicalHistoryEntriesHandler (authorize : Int → Bool) (st : Store)
    (patientID : Int) : Nat × RespBody :=
  match (getMedicalHistoryEntries authorize st patientID).result with
  | .ok entries => (200, .mhJson entries)
  | .error err =>
      if err.isError .medicalHistoryEntryNotFound then (404, .errBody)
      else if err.isError .patientNotFound then (404, .errBody)
      else (500, .errBody)

/-! ## Concrete fixtures for witnesses and counterexamples -/

/-- A stored patient with id 1. -/
def patient1 : Patient :=
  ⟨1, 10, "Jane Roe", 50, ⟨1980, 40, 0⟩, "Male", "", "jane@roe.org", "", "", "",
    ⟨2020, 1, 0⟩, ⟨2020, 1, 0⟩⟩

/-- A stored lifestyle entry with id 1 owned by patient 1. -/
def lsEntry1 : LifestyleEntry :=
  ⟨1, 1, "Smoking", "Yes", GoTime.zeroT, GoTime.zeroT, ⟨2020, 1, 0⟩, ⟨2020, 1, 0⟩⟩

/-- A stored medical history entry with id 1 owned by patient 1. -/
def mhEntry1 : MedicalHistoryEntry :=
  ⟨1, 1, "Asthma", GoTime.zeroT, "Active", "", ⟨2020, 1, 0⟩, ⟨2020, 1, 0⟩⟩

/-- Patient 1 exists and owns zero child entries. -/
def stEmptyChildren : Store := ⟨[patient1], [], []⟩

/-- Patient 1 exists and owns one entry of each kind. -/
def stOne : Store := ⟨[patient1], [mhEntry1], [lsEntry1]⟩

/-- An evaluation instant: day 50 of 2026. -/
def tNow : GoTime := ⟨2026, 50, 0⟩

/-- January 1, 1994. -/
def dob1994 : GoTime := ⟨1994, 1, 0⟩

/-- The spec scenario payload: age 30 with date of birth 1994-01-01. -/
def specCreateReq : CreatePatientRequest :=
  ⟨1, "John Doe", 30, dob1994, "Male", "", "john.doe@example.com", "", "", ""⟩

/-- An update supplying only a new date of birth. -/
def dobOnlyUpdateReq : UpdatePatientRequest :=
  ⟨"", 0, dob1994, "", "", "", "", "", ""⟩

/-- An update supplying only a new age. -/
def ageOnlyUpdateReq : UpdatePatientRequest :=
  ⟨"", 44, GoTime.zeroT, "", "", "", "", "", ""⟩

/-- A lifestyle create payload with the required factor missing. -/
def emptyLsCreateReq : CreateLifestyleRequest := ⟨"", "", GoTime.zeroT, GoTime.zeroT⟩

/-- The all-zero lifestyle update payload. -/
def emptyLsUpdateReq : UpdateLifestyleRequest := ⟨"", "", GoTime.zeroT, GoTime.zeroT⟩

/-- The all-zero medical history update payload. -/
def emptyMhUpdateReq : UpdateMedicalHistoryRequest := ⟨"", GoTime.zeroT, "", ""⟩

/-- The all-zero patient update payload. -/
def emptyPatientUpdateReq : UpdatePatientRequest :=
  ⟨"", 0, GoTime.zeroT, "", "", "", "", "", ""⟩

/-! ## Helper lemmas -/

/-- The Create DateOfBirth chain always produces a failure: a zero date fails
required, a non-past date fails pastdate, and a past date fails dateformat
(whose string type-assertion cannot succeed on a time value). -/
theorem chainDobCreate_ne_nil (now d : GoTime) : chainDobCreate now d ≠ [] := by
  unfold chainDobCreate
  split
  · simp
  · split
    · simp
    · simp [dateformatOnTime]

/-- The Update DateOfBirth chain produces a failure whenever the field is
non-zero. -/
theorem chainDobUpdate_ne_nil (now d : GoTime) (h : d.isZero = false) :
    chainDobUpdate now d ≠ [] := by
  unfold chainDobUpdate
  rw [h]
  simp only [Bool.false_eq_true, if_false]
  split
  · simp
  · simp [dateformatOnTime]

/-- CreatePatientRequest validation always fails. -/
theorem validateCreatePatient_ne_nil (now : GoTime) (r : CreatePatientRequest) :
    validateCreatePatient now r ≠ [] := by
  unfold validateCreatePatient
  apply List.append_ne_nil_of_left_ne_nil
  apply List.append_ne_nil_of_left_ne_nil
  apply List.append_ne_nil_of_left_ne_nil
  apply List.append_ne_nil_of_left_ne_nil
  apply List.append_ne_nil_of_left_ne_nil
  exact List.append_ne_nil_of_right_ne_nil _ (chainDobCreate_ne_nil now r.dateOfBirth)

/-- UpdatePatientRequest validation fails whenever a date of birth is
supplied. -/
theorem validateUpdatePatient_ne_nil_of_dob (now : GoTime) (r : UpdatePatientRequest)
    (h : r.dateOfBirth.isZero = false) : validateUpdatePatient now r ≠ [] := by
  unfold validateUpdatePatient
  apply List.append_ne_nil_of_left_ne_nil
  apply List.append_ne_nil_of_left_ne_nil
  apply List.append_ne_nil_of_left_ne_nil
  apply List.append_ne_nil_of_left_ne_nil
  apply List.append_ne_nil_of_left_ne_nil
  exact List.append_ne_nil_of_right_ne_nil _ (chainDobUpdate_ne_nil now r.dateOfBirth h)

/-- CreatePatient on a failing validation returns the packaged
ValidationError. -/
theorem createPatient_invalid (now : GoTime) (st : Store) (req : CreatePatientRequest)
    (h : validateCreatePatient now req ≠ []) :
    createPatient now st req =
      ⟨.error (.validationError "INVALID_PATIENT_DATA" "Validation errors occurred"
        (detailStrings (validateCreatePatient now req))), st, []⟩ := by
  have hb : (validateCreatePatient now req != []) = true := bne_iff_ne.mpr h
  simp [createPatient, hb]

/-- UpdatePatient on a failing validation returns the packaged
ValidationError. -/
theorem updatePatient_invalid (now : GoTime) (st : Store) (pid : Int)
    (req : UpdatePatientRequest) (h : validateUpdatePatient now req ≠ []) :
    updatePatient now st pid req =
      ⟨.error (.validationError "INVALID_PATIENT_DATA" "Validation errors occurred"
        (detailStrings (validateUpdatePatient now req))), st, []⟩ := by
  have hb : (validateUpdatePatient now req != []) = true := bne_iff_ne.mpr h
  simp [updatePatient, hb]

/-- CreateMedicalHistoryEntry on a failing validation returns the packaged
ValidationError. -/
theorem createMedicalHistoryEntry_invalid (a : Int → Bool) (now : GoTime) (st : Store)
    (pid : Int) (req : CreateMedicalHistoryRequest)
    (h : validateCreateMedicalHistory now req ≠ []) :
    createMedicalHistoryEntry a now st pid req =
      ⟨.error (.validationError "INVALID_MEDICAL_HISTORY_DATA" "Validation errors occurred"
        (detailStrings (validateCreateMedicalHistory now req))), st, []⟩ := by
  have hb : (validateCreateMedicalHistory now req != []) = true := bne_iff_ne.mpr h
  simp [createMedicalHistoryEntry, hb]

/-- UpdateMedicalHistoryEntry on a failing validation returns the packaged
ValidationError. -/
theorem updateMedicalHistoryEntry_invalid (a : Int → Bool) (now : GoTime) (st : Store)
    (id : Int) (req : UpdateMedicalHistoryRequest)
    (h : validateUpdateMedicalHistory now req ≠ []) :
    updateMedicalHistoryEntry a now st id req =
      ⟨.error (.validationError "INVALID_MEDICAL_HISTORY_DATA" "Validation errors occurred"
        (detailStrings (validateUpdateMedicalHistory now req))), st, []⟩ := by
  have hb : (validateUpdateMedicalHistory now req != []) = true := bne_iff_ne.mpr h
  simp [updateMedicalHistoryEntry, hb]

/-- CreateLifestyleEntry on a failing validation returns the undetailed
sentinel ErrInvalidInput. -/
theorem createLifestyleEntry_invalid (a : Int → Bool) (now : GoTime) (st : Store)
    (pid : Int) (req : CreateLifestyleRequest) (h : validateCreateLifestyle req ≠ []) :
    createLifestyleEntry a now st pid req = ⟨.error .invalidInput, st, []⟩ := by
  have hb : (validateCreateLifestyle req != []) = true := bne_iff_ne.mpr h
  simp [createLifestyleEntry, hb]

/-- Denied authorization short-circuits UpdateLifestyleEntry. -/
theorem updateLifestyleEntry_forbidden (a : Int → Bool) (now : GoTime) (st : Store)
    (id : Int) (req : UpdateLifestyleRequest) (e : LifestyleEntry)
    (hget : lifestyleRepoGetEntry st id = .ok e) (hauth : a e.patientID = false) :
    updateLifestyleEntry a now st id req =
      ⟨.error .forbidden, st, [.lsGetCall id, .authorizeCall e.patientID]⟩ := by
  simp [updateLifestyleEntry, validateUpdateLifestyle, hget, hauth]

/-- Denied authorization short-circuits DeleteLifestyleEntry. -/
theorem deleteLifestyleEntry_forbidden (a : Int → Bool) (st : Store) (id : Int)
    (e : LifestyleEntry) (hget : lifestyleRepoGetEntry st id = .ok e)
    (hauth : a e.patientID = false) :
    deleteLifestyleEntry a st id =
      ⟨.error .forbidden, st, [.lsGetCall id, .authorizeCall e.patientID]⟩ := by
  simp [deleteLifestyleEntry, hget, hauth]

/-- Denied authorization short-circuits UpdateMedicalHistoryEntry. -/
theorem updateMedicalHistoryEntry_forbidden (a : Int → Bool) (now : GoTime) (st : Store)
    (id : Int) (req : UpdateMedicalHistoryRequest) (e : MedicalHistoryEntry)
    (hval : validateUpdateMedicalHistory now req = [])
    (hget : mhRepoGetEntry st id = .ok e) (hauth : a e.patientID = false) :
    updateMedicalHistoryEntry a now st id req =
      ⟨.error .forbidden, st, [.mhGetCall id, .authorizeCall e.patientID]⟩ := by
  simp [updateMedicalHistoryEntry, hval, hget, hauth]

/-- Denied authorization short-circuits DeleteMedicalHistoryEntry. -/
theorem deleteMedicalHistoryEntry_forbidden (a : Int → Bool) (st : Store) (id : Int)
    (e : MedicalHistoryEntry) (hget : mhRepoGetEntry st id = .ok e)
    (hauth : a e.patientID = false) :
    deleteMedicalHistoryEntry a st id =
      ⟨.error .forbidden, st, [.mhGetCall id, .authorizeCall e.patientID]⟩ := by
  simp [deleteMedicalHistoryEntry, hget, hauth]

/-- Successful patient lookup exposes the underlying row. -/
theorem patientRepoGetPatient_ok (st : Store) (pid : Int) (p : Patient)
    (h : patientRepoGetPatient st pid = .ok p) :
    st.patients.find? (fun x => x.patientID == pid) = some p := by
  cases hf : st.patients.find? (fun x => x.patientID == pid) with
  | none => simp [patientRepoGetPatient, hf] at h
  | some q => simp [patientRepoGetPatient, hf] at h; rw [h]

/-- A non-error lifestyle repository list is non-empty. -/
theorem lifestyleRepoGetEntries_ok_nonempty (st : Store) (pid : Int)
    (es : List LifestyleEntry) (h : lifestyleRepoGetEntries st pid = .ok es) :
    es ≠ [] := by
  simp only [lifestyleRepoGetEntries] at h
  split at h
  · exact absurd h (by simp)
  · rename_i hcond
    simp only [Except.ok.injEq] at h
    subst h
    intro hnil
    rw [hnil] at hcond
    simp at hcond

/-- A non-error medical history repository list is non-empty. -/
theorem mhRepoGetEntries_ok_nonempty (st : Store) (pid : Int)
    (es : List MedicalHistoryEntry) (h : mhRepoGetEntries st pid = .ok es) :
    es ≠ [] := by
  simp only [mhRepoGetEntries] at h
  split at h
  · exact absurd h (by simp)
  · rename_i hcond
    simp only [Except.ok.injEq] at h
    subst h
    intro hnil
    rw [hnil] at hcond
    simp at hcond

/-! ## Claim theorems -/

/-- C6: the update-merge of all three entities is optional overwrite — the
all-zero request is the identity on the loaded entity (only the repository
bumps updated_at at persist time), and each non-zero request field overwrites
exactly its corresponding entity field while zero request fields leave the
stored field untouched; server-owned fields (ids, timestamps) are never
touched by the merge. -/
theorem merge_is_optional_overwrite :
    (∀ p : Patient, mergePatient p emptyPatientUpdateReq = p) ∧
    (∀ e : MedicalHistoryEntry, mergeMedicalHistory e emptyMhUpdateReq = e) ∧
    (∀ e : LifestyleEntry, mergeLifestyle e emptyLsUpdateReq = e) ∧
    (∀ (p : Patient) (r : UpdatePatientRequest),
      (mergePatient p r).patientID = p.patientID ∧
      (mergePatient p r).userID = p.userID ∧
      (mergePatient p r).createdAt = p.createdAt ∧
      (mergePatient p r).updatedAt = p.updatedAt ∧
      (mergePatient p r).fullName = (if r.fullName != "" then r.fullName else p.fullName) ∧
      (mergePatient p r).age = (if r.age != 0 then r.age else p.age) ∧
      (mergePatient p r).dateOfBirth =
        (if !r.dateOfBirth.isZero then r.dateOfBirth else p.dateOfBirth) ∧
      (mergePatient p r).sex = (if r.sex != "" then r.sex else p.sex) ∧
      (mergePatient p r).phoneNumber =
        (if r.phoneNumber != "" then r.phoneNumber else p.phoneNumber) ∧
      (mergePatient p r).emailAddress =
        (if r.emailAddress != "" then r.emailAddress else p.emailAddress) ∧
      (mergePatient p r).preferredCommunication =
        (if r.preferredCommunication != "" then r.preferredCommunication
         else p.preferredCommunication) ∧
      (mergePatient p r).socioeconomicStatus =
        (if r.socioeconomicStatus != "" then r.socioeconomicStatus
         else p.socioeconomicStatus) ∧
      (mergePatient p r).geographicLocation =
        (if r.geographicLocation != "" then r.geographicLocation
         else p.geographicLocation)) ∧
    (∀ (e : MedicalHistoryEntry) (r : UpdateMedicalHistoryRequest),
      (mergeMedicalHistory e r).patientMedicalHistoryID = e.patientMedicalHistoryID ∧
      (mergeMedicalHistory e r).patientID = e.patientID ∧
      (mergeMedicalHistory e r).createdAt = e.createdAt ∧
      (mergeMedicalHistory e r).updatedAt = e.updatedAt ∧
      (mergeMedicalHistory e r).condition =
        (if r.condition != "" then r.condition else e.condition) ∧
      (mergeMedicalHistory e r).diagnosisDate =
        (if !r.diagnosisDate.isZero then r.diagnosisDate else e.diagnosisDate) ∧
      (mergeMedicalHistory e r).status = (if r.status != "" then r.status else e.status) ∧
      (mergeMedicalHistory e r).details =
        (if r.details != "" then r.details else e.details)) ∧
    (∀ (e : LifestyleEntry) (r : UpdateLifestyleRequest),
      (mergeLifestyle e r).patientLifestyleID = e.patientLifestyleID ∧
      (mergeLifestyle e r).patientID = e.patientID ∧
      (mergeLifestyle e r).createdAt = e.createdAt ∧
      (mergeLifestyle e r).updatedAt = e.updatedAt ∧
      (mergeLifestyle e r).lifestyleFactor =
        (if r.lifestyleFactor != "" then r.lifestyleFactor else e.lifestyleFactor) ∧
      (mergeLifestyle e r).value = (if r.value != "" then r.value else e.value) ∧
      (mergeLifestyle e r).startDate =
        (if !r.startDate.isZero then r.startDate else e.startDate) ∧
      (mergeLifestyle e r).endDate =
        (if !r.endDate.isZero then r.endDate else e.endDate)) :=
  ⟨fun _ => rfl, fun _ => rfl, fun _ => rfl,
   fun _ _ => ⟨rfl, rfl, rfl, rfl, rfl, rfl, rfl, rfl, rfl, rfl, rfl, rfl, rfl⟩,
   fun _ _ => ⟨rfl, rfl, rfl, rfl, rfl, rfl, rfl, rfl⟩,
   fun _ _ => ⟨rfl, rfl, rfl, rfl, rfl, rfl, rfl, rfl⟩⟩

/-- C7: authClient.Authorize evaluates its policy in a fixed order with
short-circuiting — self-access (caller identity equals the owner patient id
rendered as a string, no provider call), then the provider lookup whose
failure propagates, then the "physician"/"clerk" role values, then the
"patient:read_all" override, else deny; self-access allows for every provider
and metadata state. -/
theorem authorize_policy_fixed_order :
    (∀ (uid : String) (pid : Int) (prov : Except String ClerkUser),
        (toString pid == uid) = true → authClientAuthorize uid pid prov = .ok true) ∧
    (∀ (uid : String) (pid : Int) (msg : String),
        (toString pid == uid) = false →
        authClientAuthorize uid pid (.error msg) = .error msg) ∧
    (∀ (uid : String) (pid : Int) (u : ClerkUser),
        (toString pid == uid) = false →
        u.publicMetadata.any (fun kv => kv.2 == "physician" || kv.2 == "clerk") = true →
        authClientAuthorize uid pid (.ok u) = .ok true) ∧
    (∀ (uid : String) (pid : Int) (u : ClerkUser),
        (toString pid == uid) = false →
        u.publicMetadata.any (fun kv => kv.2 == "physician" || kv.2 == "clerk") = false →
        strContainsSub (renderMetadata u.publicMetadata) "patient:read_all" = true →
        authClientAuthorize uid pid (.ok u) = .ok true) ∧
    (∀ (uid : String) (pid : Int) (u : ClerkUser),
        (toString pid == uid) = false →
        u.publicMetadata.any (fun kv => kv.2 == "physician" || kv.2 == "clerk") = false →
        strContainsSub (renderMetadata u.publicMetadata) "patient:read_all" = false →
        authClientAuthorize uid pid (.ok u) = .ok false) := by
  refine ⟨?_, ?_, ?_, ?_, ?_⟩
  · intro uid pid prov h
    simp [authClientAuthorize, h]
  · intro uid pid msg h
    simp [authClientAuthorize, h]
  · intro uid pid u h1 h2
    simp [authClientAuthorize, h1, h2]
  · intro uid pid u h1 h2 h3
    simp [authClientAuthorize, h1, h2, h3]
  · intro uid pid u h1 h2 h3
    simp [authClientAuthorize, h1, h2, h3]

/-- C7 witness: identity "2" may act on patient 2 even when the provider is
down; identity "3" on patient 2 propagates the provider failure, is allowed
with a physician role or a patient:read_all override, and is denied with
neither. -/
theorem authorize_policy_fixed_order_witness :
    authClientAuthorize "2" 2 (.error "provider down") = .ok true ∧
    authClientAuthorize "3" 2 (.error "provider down") = .error "provider down" ∧
    authClientAuthorize "3" 2 (.ok ⟨[("role", "physician")]⟩) = .ok true ∧
    authClientAuthorize "3" 2 (.ok ⟨[("perm", "patient:read_all")]⟩) = .ok true ∧
    authClientAuthorize "3" 2 (.ok ⟨[("role", "nurse")]⟩) = .ok false :=
  ⟨authorize_policy_fixed_order.1 "2" 2 _ (by decide),
   authorize_policy_fixed_order.2.1 "3" 2 "provider down" (by decide),
   authorize_policy_fixed_order.2.2.1 "3" 2 ⟨[("role", "physician")]⟩
     (by decide) (by decide),
   authorize_policy_fixed_order.2.2.2.1 "3" 2 ⟨[("perm", "patient:read_all")]⟩
     (by decide) (by decide) (by decide),
   authorize_policy_fixed_order.2.2.2.2 "3" 2 ⟨[("role", "nurse")]⟩
     (by decide) (by decide) (by decide)⟩

/-- C10: whenever the lifestyle list service or the medical history list
repository returns without error, the returned list is non-empty; a
zero-length result set is always converted to the corresponding not-found
error. -/
theorem list_success_is_nonempty :
    (∀ (a : Int → Bool) (st : Store) (pid : Int) (es : List LifestyleEntry),
        (getLifestyleEntries a st pid).result = .ok es → es ≠ []) ∧
    (∀ (st : Store) (pid : Int) (es : List MedicalHistoryEntry),
        mhRepoGetEntries st pid = .ok es → es ≠ []) := by
  constructor
  · intro a st pid es h
    cases hp : patientRepoGetPatient st pid with
    | error e =>
        simp only [getLifestyleEntries, hp] at h
        split at h <;> simp at h
    | ok p =>
        cases hl : lifestyleRepoGetEntries st pid with
        | error e => simp [getLifestyleEntries, hp, hl] at h
        | ok entries =>
            simp only [getLifestyleEntries, hp, hl] at h
            split at h
            · simp at h
            · simp only [Except.ok.injEq] at h
              subst h
              exact lifestyleRepoGetEntries_ok_nonempty st pid _ hl
  · exact fun st pid es h => mhRepoGetEntries_ok_nonempty st pid es h

/-- C10 witness: on a store holding one entry of each kind for patient 1,
both list reads succeed with a one-element (hence non-empty) list. -/
theorem list_success_is_nonempty_witness :
    (getLifestyleEntries (fun _ => true) stOne 1).result = .ok [lsEntry1] ∧
    ([lsEntry1] : List LifestyleEntry) ≠ [] ∧
    mhRepoGetEntries stOne 1 = .ok [mhEntry1] ∧
    ([mhEntry1] : List MedicalHistoryEntry) ≠ [] :=
  ⟨by decide,
   list_success_is_nonempty.1 (fun _ => true) stOne 1 [lsEntry1] (by decide),
   by decide,
   list_success_is_nonempty.2 stOne 1 [mhEntry1] (by decide)⟩

/-- C3: when the stored owner id of the addressed entry makes the injected
authorize function return false, Update and Delete of both entry services
return ErrForbidden, leave the store unchanged, and never invoke a mutating
repository method. -/
theorem forbidden_denial_precedes_mutation :
    (∀ (a : Int → Bool) (now : GoTime) (st : Store) (id : Int)
        (req : UpdateLifestyleRequest) (e : LifestyleEntry),
        lifestyleRepoGetEntry st id = .ok e → a e.patientID = false →
        (updateLifestyleEntry a now st id req).result = .error .forbidden ∧
        (updateLifestyleEntry a now st id req).store = st ∧
        ((updateLifestyleEntry a now st id req).events.all
          fun ev => !ev.isMutator) = true) ∧
    (∀ (a : Int → Bool) (st : Store) (id : Int) (e : LifestyleEntry),
        lifestyleRepoGetEntry st id = .ok e → a e.patientID = false →
        (deleteLifestyleEntry a st id).result = .error .forbidden ∧
        (deleteLifestyleEntry a st id).store = st ∧
        ((deleteLifestyleEntry a st id).events.all fun ev => !ev.isMutator) = true) ∧
    (∀ (a : Int → Bool) (now : GoTime) (st : Store) (id : Int)
        (req : UpdateMedicalHistoryRequest) (e : MedicalHistoryEntry),
        validateUpdateMedicalHistory now req = [] →
        mhRepoGetEntry st id = .ok e → a e.patientID = false →
        (updateMedicalHistoryEntry a now st id req).result = .error .forbidden ∧
        (updateMedicalHistoryEntry a now st id req).store = st ∧
        ((updateMedicalHistoryEntry a now st id req).events.all
          fun ev => !ev.isMutator) = true) ∧
    (∀ (a : Int → Bool) (st : Store) (id : Int) (e : MedicalHistoryEntry),
        mhRepoGetEntry st id = .ok e → a e.patientID = false →
        (deleteMedicalHistoryEntry a st id).result = .error .forbidden ∧
        (deleteMedicalHistoryEntry a st id).store = st ∧
        ((deleteMedicalHistoryEntry a st id).events.all
          fun ev => !ev.isMutator) = true) := by
  refine ⟨?_, ?_, ?_, ?_⟩
  · intro a now st id req e hget hauth
    rw [updateLifestyleEntry_forbidden a now st id req e hget hauth]
    exact ⟨rfl, rfl, rfl⟩
  · intro a st id e hget hauth
    rw [deleteLifestyleEntry_forbidden a st id e hget hauth]
    exact ⟨rfl, rfl, rfl⟩
  · intro a now st id req e hval hget hauth
    rw [updateMedicalHistoryEntry_forbidden a now st id req e hval hget hauth]
    exact ⟨rfl, rfl, rfl⟩
  · intro a st id e hget hauth
    rw [deleteMedicalHistoryEntry_forbidden a st id e hget hauth]
    exact ⟨rfl, rfl, rfl⟩

/-- C3 witness: a caller denied on every owner gets Forbidden from all four
mutating operations on the one-entry store, the store is unchanged, and the
traces contain no mutating repository call. -/
theorem forbidden_denial_precedes_mutation_witness :
    (updateLifestyleEntry (fun _ => false) tNow stOne 1 emptyLsUpdateReq).result =
      .error .forbidden ∧
    (updateLifestyleEntry (fun _ => false) tNow stOne 1 emptyLsUpdateReq).store = stOne ∧
    ((deleteLifestyleEntry (fun _ => false) stOne 1).events.all
      fun ev => !ev.isMutator) = true ∧
    (deleteLifestyleEntry (fun _ => false) stOne 1).result = .error .forbidden ∧
    (updateMedicalHistoryEntry (fun _ => false) tNow stOne 1 emptyMhUpdateReq).result =
      .error .forbidden ∧
    (deleteMedicalHistoryEntry (fun _ => false) stOne 1).result = .error .forbidden :=
  ⟨(forbidden_denial_precedes_mutation.1 (fun _ => false) tNow stOne 1 emptyLsUpdateReq
      lsEntry1 (by decide) rfl).1,
   (forbidden_denial_precedes_mutation.1 (fun _ => false) tNow stOne 1 emptyLsUpdateReq
      lsEntry1 (by decide) rfl).2.1,
   (forbidden_denial_precedes_mutation.2.1 (fun _ => false) stOne 1 lsEntry1
      (by decide) rfl).2.2,
   (forbidden_denial_precedes_mutation.2.1 (fun _ => false) stOne 1 lsEntry1
      (by decide) rfl).1,
   (forbidden_denial_precedes_mutation.2.2.1 (fun _ => false) tNow stOne 1
      emptyMhUpdateReq mhEntry1 (by decide) (by decide) rfl).1,
   (forbidden_denial_precedes_mutation.2.2.2 (fun _ => false) stOne 1 mhEntry1
      (by decide) rfl).1⟩

/-- C2: the auth client itself does surface a provider failure as a distinct
error (never an ok false); but the services' injected authorize function has
the boolean type of the Go service field, so at the service layer a false
answer — the only non-allow answer the type admits — yields exactly the same
ErrForbidden as an ordinary denial for every one of the four gated
operations. -/
theorem provider_failure_collapses_to_forbidden :
    (∀ (uid : String) (pid : Int) (msg : String),
        (toString pid == uid) = false →
        authClientAuthorize uid pid (.error msg) = .error msg ∧
        ∀ b : Bool, authClientAuthorize uid pid (.error msg) ≠ .ok b) ∧
    (∀ (a : Int → Bool) (now : GoTime) (st : Store) (id : Int)
        (req : UpdateLifestyleRequest) (e : LifestyleEntry),
        lifestyleRepoGetEntry st id = .ok e → a e.patientID = false →
        (updateLifestyleEntry a now st id req).result = .error .forbidden) ∧
    (∀ (a : Int → Bool) (st : Store) (id : Int) (e : LifestyleEntry),
        lifestyleRepoGetEntry st id = .ok e → a e.patientID = false →
        (deleteLifestyleEntry a st id).result = .error .forbidden) ∧
    (∀ (a : Int → Bool) (now : GoTime) (st : Store) (id : Int)
        (req : UpdateMedicalHistoryRequest) (e : MedicalHistoryEntry),
        validateUpdateMedicalHistory now req = [] →
        mhRepoGetEntry st id = .ok e → a e.patientID = false →
        (updateMedicalHistoryEntry a now st id req).result = .error .forbidden) ∧
    (∀ (a : Int → Bool) (st : Store) (id : Int) (e : MedicalHistoryEntry),
        mhRepoGetEntry st id = .ok e → a e.patientID = false →
        (deleteMedicalHistoryEntry a st id).result = .error .forbidden) := by
  refine ⟨?_, ?_, ?_, ?_, ?_⟩
  · intro uid pid msg h
    refine ⟨by simp [authClientAuthorize, h], ?_⟩
    intro b
    simp [authClientAuthorize, h]
  · intro a now st id req e hget hauth
    rw [updateLifestyleEntry_forbidden a now st id req e hget hauth]
  · intro a st id e hget hauth
    rw [deleteLifestyleEntry_forbidden a st id e hget hauth]
  · intro a now st id req e hval hget hauth
    rw [updateMedicalHistoryEntry_forbidden a now st id req e hval hget hauth]
  · intro a st id e hget hauth
    rw [deleteMedicalHistoryEntry_forbidden a st id e hget hauth]

/-- C2 witness: for caller "9" on patient 1 the auth client propagates a
provider failure as a distinct error, while an adapter that renders that
failure as false makes every gated service operation answer with the same
ErrForbidden as an ordinary denial. -/
theorem provider_failure_collapses_to_forbidden_witness :
    authClientAuthorize "9" 1 (.error "clerk unavailable") = .error "clerk unavailable" ∧
    authClientAuthorize "9" 1 (.error "clerk unavailable") ≠ .ok false ∧
    (updateLifestyleEntry (fun _ => false) tNow stOne 1 emptyLsUpdateReq).result =
      .error .forbidden ∧
    (deleteLifestyleEntry (fun _ => false) stOne 1).result = .error .forbidden ∧
    (updateMedicalHistoryEntry (fun _ => false) tNow stOne 1 emptyMhUpdateReq).result =
      .error .forbidden ∧
    (deleteMedicalHistoryEntry (fun _ => false) stOne 1).result = .error .forbidden :=
  ⟨(provider_failure_collapses_to_forbidden.1 "9" 1 "clerk unavailable" (by decide)).1,
   (provider_failure_collapses_to_forbidden.1 "9" 1 "clerk unavailable"
      (by decide)).2 false,
   provider_failure_collapses_to_forbidden.2.1 (fun _ => false) tNow stOne 1
     emptyLsUpdateReq lsEntry1 (by decide) rfl,
   provider_failure_collapses_to_forbidden.2.2.1 (fun _ => false) stOne 1 lsEntry1
     (by decide) rfl,
   provider_failure_collapses_to_forbidden.2.2.2.1 (fun _ => false) tNow stOne 1
     emptyMhUpdateReq mhEntry1 (by decide) (by decide) rfl,
   provider_failure_collapses_to_forbidden.2.2.2.2 (fun _ => false) stOne 1 mhEntry1
     (by decide) rfl⟩

/-- C9: the injected authorize function is consulted only by Update and
Delete — the Create, List-by-owner and Get-by-id operations of both entry
services emit no authorize call and return the same outcome for any two
authorize functions. -/
theorem authorize_never_called_on_reads_and_creates :
    (∀ (a1 a2 : Int → Bool) (now : GoTime) (st : Store) (pid : Int)
        (req : CreateLifestyleRequest),
        createLifestyleEntry a1 now st pid req = createLifestyleEntry a2 now st pid req) ∧
    (∀ (a : Int → Bool) (now : GoTime) (st : Store) (pid : Int)
        (req : CreateLifestyleRequest),
        ((createLifestyleEntry a now st pid req).events.all fun ev => !ev.isAuth) = true) ∧
    (∀ (a1 a2 : Int → Bool) (st : Store) (pid : Int),
        getLifestyleEntries a1 st pid = getLifestyleEntries a2 st pid) ∧
    (∀ (a : Int → Bool) (st : Store) (pid : Int),
        ((getLifestyleEntries a st pid).events.all fun ev => !ev.isAuth) = true) ∧
    (∀ (a1 a2 : Int → Bool) (st : Store) (id : Int),
        getLifestyleEntry a1 st id = getLifestyleEntry a2 st id) ∧
    (∀ (a : Int → Bool) (st : Store) (id : Int),
        ((getLifestyleEntry a st id).events.all fun ev => !ev.isAuth) = true) ∧
    (∀ (a1 a2 : Int → Bool) (now : GoTime) (st : Store) (pid : Int)
        (req : CreateMedicalHistoryRequest),
        createMedicalHistoryEntry a1 now st pid req =
          createMedicalHistoryEntry a2 now st pid req) ∧
    (∀ (a : Int → Bool) (now : GoTime) (st : Store) (pid : Int)
        (req : CreateMedicalHistoryRequest),
        ((createMedicalHistoryEntry a now st pid req).events.all
          fun ev => !ev.isAuth) = true) ∧
    (∀ (a1 a2 : Int → Bool) (st : Store) (pid : Int),
        getMedicalHistoryEntries a1 st pid = getMedicalHistoryEntries a2 st pid) ∧
    (∀ (a : Int → Bool) (st : Store) (pid : Int),
        ((getMedicalHistoryEntries a st pid).events.all fun ev => !ev.isAuth) = true) ∧
    (∀ (a1 a2 : Int → Bool) (st : Store) (id : Int),
        getMedicalHistoryEntry a1 st id = getMedicalHistoryEntry a2 st id) ∧
    (∀ (a : Int → Bool) (st : Store) (id : Int),
        ((getMedicalHistoryEntry a st id).events.all fun ev => !ev.isAuth) = true) := by
  refine ⟨fun _ _ _ _ _ _ => rfl, ?_, fun _ _ _ _ => rfl, ?_, fun _ _ _ _ => rfl, ?_,
    fun _ _ _ _ _ _ => rfl, ?_, fun _ _ _ _ => rfl, ?_, fun _ _ _ _ => rfl, ?_⟩
  · intro a now st pid req
    unfold createLifestyleEntry
    dsimp only
    repeat' split
    all_goals rfl
  · intro a st pid
    unfold getLifestyleEntries
    dsimp only
    repeat' split
    all_goals rfl
  · intro a st id
    unfold getLifestyleEntry
    dsimp only
    repeat' split
    all_goals rfl
  · intro a now st pid req
    unfold createMedicalHistoryEntry
    dsimp only
    repeat' split
    all_goals rfl
  · intro a st pid
    unfold getMedicalHistoryEntries
    dsimp only
    repeat' split
    all_goals rfl
  · intro a st id
    unfold getMedicalHistoryEntry
    dsimp only
    repeat' split
    all_goals rfl

/-- A medical history create payload failing on two fields at once. -/
def badMhCreateReq : CreateMedicalHistoryRequest := ⟨"", GoTime.zeroT, "Unknown", ""⟩

/-- An update supplying both a new age and a new date of birth. -/
def bothFieldsUpdateReq : UpdatePatientRequest :=
  ⟨"", 30, dob1994, "", "", "", "", "", ""⟩

/-- C4 counterexample: a Lifestyle create whose payload fails validation (the
required factor is missing) returns the bare ErrInvalidInput sentinel, which
carries no machine-readable code, no summary and no field-detail list — so
not every one of the three services returns the structured error. -/
theorem lifestyle_validation_detail_counterexample :
    (createLifestyleEntry (fun _ => true) tNow stEmptyChildren 1
      emptyLsCreateReq).result = .error .invalidInput ∧
    DomainError.invalidInput.validationData = none := ⟨by decide, rfl⟩

/-- C4 amended: the Patient and MedicalHistory services package a failing
validation into one structured ValidationError carrying a machine-readable
code, the human summary, and one detail line for every failing (field, rule)
pair — the whole failure list, never only the first failing field — while
the Lifestyle service returns the undetailed ErrInvalidInput sentinel
stripped of the field-level details. -/
theorem validation_error_packaging :
    (∀ (now : GoTime) (st : Store) (req : CreatePatientRequest),
        validateCreatePatient now req ≠ [] →
        (createPatient now st req).result =
          .error (.validationError "INVALID_PATIENT_DATA" "Validation errors occurred"
            (detailStrings (validateCreatePatient now req)))) ∧
    (∀ (now : GoTime) (st : Store) (pid : Int) (req : UpdatePatientRequest),
        validateUpdatePatient now req ≠ [] →
        (updatePatient now st pid req).result =
          .error (.validationError "INVALID_PATIENT_DATA" "Validation errors occurred"
            (detailStrings (validateUpdatePatient now req)))) ∧
    (∀ (a : Int → Bool) (now : GoTime) (st : Store) (pid : Int)
        (req : CreateMedicalHistoryRequest),
        validateCreateMedicalHistory now req ≠ [] →
        (createMedicalHistoryEntry a now st pid req).result =
          .error (.validationError "INVALID_MEDICAL_HISTORY_DATA"
            "Validation errors occurred"
            (detailStrings (validateCreateMedicalHistory now req)))) ∧
    (∀ (a : Int → Bool) (now : GoTime) (st : Store) (id : Int)
        (req : UpdateMedicalHistoryRequest),
        validateUpdateMedicalHistory now req ≠ [] →
        (updateMedicalHistoryEntry a now st id req).result =
          .error (.validationError "INVALID_MEDICAL_HISTORY_DATA"
            "Validation errors occurred"
            (detailStrings (validateUpdateMedicalHistory now req)))) ∧
    (∀ (a : Int → Bool) (now : GoTime) (st : Store) (pid : Int)
        (req : CreateLifestyleRequest),
        validateCreateLifestyle req ≠ [] →
        (createLifestyleEntry a now st pid req).result = .error .invalidInput) ∧
    (∀ fs : List (String × String), (detailStrings fs).length = fs.length) := by
  refine ⟨?_, ?_, ?_, ?_, ?_, ?_⟩
  · intro now st req h
    rw [createPatient_invalid now st req h]
  · intro now st pid req h
    rw [updatePatient_invalid now st pid req h]
  · intro a now st pid req h
    rw [createMedicalHistoryEntry_invalid a now st pid req h]
  · intro a now st id req h
    rw [updateMedicalHistoryEntry_invalid a now st id req h]
  · intro a now st pid req h
    rw [createLifestyleEntry_invalid a now st pid req h]
  · intro fs
    exact List.length_map fs _

/-- C4 witness: a medical history create failing on two fields at once yields
one structured error whose detail list names both failing (field, rule)
pairs. -/
theorem validation_error_packaging_witness :
    validateCreateMedicalHistory tNow badMhCreateReq ≠ [] ∧
    (createMedicalHistoryEntry (fun _ => true) tNow stEmptyChildren 1
      badMhCreateReq).result =
      .error (.validationError "INVALID_MEDICAL_HISTORY_DATA" "Validation errors occurred"
        (detailStrings (validateCreateMedicalHistory tNow badMhCreateReq))) ∧
    detailStrings (validateCreateMedicalHistory tNow badMhCreateReq) =
      ["Field Condition failed validation for tag required",
       "Field Status failed validation for tag oneof"] :=
  ⟨by decide,
   validation_error_packaging.2.2.1 (fun _ => true) tNow stEmptyChildren 1
     badMhCreateReq (by decide),
   by decide⟩

/-- C5: the age/date-of-birth consistency check of PatientService is
unreachable — every CreatePatientRequest fails validation (the registered
dateformat rule string-type-asserts against the time-typed DateOfBirth and
always fails, and a zero date fails required), and every UpdatePatientRequest
supplying both fields likewise stops with the INVALID_PATIENT_DATA
validation error; at the spec scenario input (age 30, date of birth
1994-01-01) the result is that validation error, never
INCONSISTENT_DATA. -/
theorem patient_consistency_check_unreachable :
    (∀ (now : GoTime) (st : Store) (req : CreatePatientRequest),
        validateCreatePatient now req ≠ [] ∧
        (createPatient now st req).result =
          .error (.validationError "INVALID_PATIENT_DATA" "Validation errors occurred"
            (detailStrings (validateCreatePatient now req)))) ∧
    (∀ (now : GoTime) (st : Store) (pid : Int) (req : UpdatePatientRequest),
        (req.age != 0) = true → req.dateOfBirth.isZero = false →
        (updatePatient now st pid req).result =
          .error (.validationError "INVALID_PATIENT_DATA" "Validation errors occurred"
            (detailStrings (validateUpdatePatient now req)))) ∧
    (createPatient tNow stEmptyChildren specCreateReq).result =
      .error (.validationError "INVALID_PATIENT_DATA" "Validation errors occurred"
        ["Field DateOfBirth failed validation for tag dateformat",
         "Field Sex failed validation for tag oneof"]) := by
  refine ⟨?_, ?_, by decide⟩
  · intro now st req
    refine ⟨validateCreatePatient_ne_nil now req, ?_⟩
    rw [createPatient_invalid now st req (validateCreatePatient_ne_nil now req)]
  · intro now st pid req hage hdob
    rw [updatePatient_invalid now st pid req
      (validateUpdatePatient_ne_nil_of_dob now req hdob)]

/-- C5 witness: an update supplying age 30 together with date of birth
1994-01-01 is rejected with the INVALID_PATIENT_DATA validation error, not
INCONSISTENT_DATA. -/
theorem patient_consistency_check_unreachable_witness :
    (bothFieldsUpdateReq.age != 0) = true ∧
    bothFieldsUpdateReq.dateOfBirth.isZero = false ∧
    (updatePatient tNow stEmptyChildren 1 bothFieldsUpdateReq).result =
      .error (.validationError "INVALID_PATIENT_DATA" "Validation errors occurred"
        (detailStrings (validateUpdatePatient tNow bothFieldsUpdateReq))) :=
  ⟨by decide, by decide,
   patient_consistency_check_unreachable.2.1 tNow stEmptyChildren 1 bothFieldsUpdateReq
     (by decide) (by decide)⟩

/-- C8 counterexample: an update supplying only a new date of birth (age
zero) against the stored patient 1 is not accepted — the dateformat rule
rejects the time-typed field before any merge, so the claim's
"date-of-birth-only update is accepted" half fails. -/
theorem dob_only_update_rejected_counterexample :
    dobOnlyUpdateReq.age = 0 ∧
    dobOnlyUpdateReq.dateOfBirth.isZero = false ∧
    patientRepoGetPatient stEmptyChildren 1 = .ok patient1 ∧
    (updatePatient tNow stEmptyChildren 1 dobOnlyUpdateReq).result =
      .error (.validationError "INVALID_PATIENT_DATA" "Validation errors occurred"
        ["Field DateOfBirth failed validation for tag dateformat"]) :=
  ⟨rfl, by decide, by decide, by decide⟩

/-- C8 amended: UpdatePatient's consistency check reads only the two request
fields and is skipped whenever either is zero — the INCONSISTENT_DATA error
is impossible then; an age-only update is accepted whatever the stored date
of birth, which it leaves untouched (so the stored age-agrees-with-DOB
invariant is not re-established); a date-of-birth-only update also skips the
check but is rejected by the dateformat validation rule rather than
accepted. -/
theorem update_consistency_check_request_only :
    (∀ (now : GoTime) (st : Store) (pid : Int) (req : UpdatePatientRequest),
        (req.age != 0 && !req.dateOfBirth.isZero) = false →
        (updatePatient now st pid req).result ≠
          .error (.validationError "INCONSISTENT_DATA"
            "Age and DateOfBirth are inconsistent" [])) ∧
    (∀ (now : GoTime) (st : Store) (pid : Int) (req : UpdatePatientRequest) (p : Patient),
        patientRepoGetPatient st pid = .ok p →
        validateUpdatePatient now req = [] →
        (req.age != 0) = true → req.dateOfBirth.isZero = true →
        ∃ p2, (updatePatient now st pid req).result = .ok p2 ∧
          p2.age = req.age ∧ p2.dateOfBirth = p.dateOfBirth) ∧
    (∀ (now : GoTime) (st : Store) (pid : Int) (req : UpdatePatientRequest),
        req.age = 0 → req.dateOfBirth.isZero = false →
        (updatePatient now st pid req).result =
          .error (.validationError "INVALID_PATIENT_DATA" "Validation errors occurred"
            (detailStrings (validateUpdatePatient now req)))) := by
  refine ⟨?_, ?_, ?_⟩
  · intro now st pid req hc
    unfold updatePatient
    dsimp only
    repeat' split
    all_goals simp_all
  · intro now st pid req p hp hval hage hz
    have hfind := patientRepoGetPatient_ok st pid p hp
    unfold updatePatient patientRepoUpdatePatient
    dsimp only
    rw [hval, hp, hfind]
    simp [hz, hage, mergePatient]
  · intro now st pid req _ hdob
    rw [updatePatient_invalid now st pid req
      (validateUpdatePatient_ne_nil_of_dob now req hdob)]

/-- C8 witness: on the stored patient 1 (born 1980), an age-only update to 44
succeeds and leaves the stored date of birth untouched even though 44 cannot
match a 1980 birth date at the evaluation instant, while a
date-of-birth-only update is rejected by validation. -/
theorem update_consistency_check_request_only_witness :
    (updatePatient tNow stEmptyChildren 1 ageOnlyUpdateReq).result ≠
      .error (.validationError "INCONSISTENT_DATA"
        "Age and DateOfBirth are inconsistent" []) ∧
    (∃ p2, (updatePatient tNow stEmptyChildren 1 ageOnlyUpdateReq).result = .ok p2 ∧
      p2.age = ageOnlyUpdateReq.age ∧ p2.dateOfBirth = patient1.dateOfBirth) ∧
    (updatePatient tNow stEmptyChildren 1 dobOnlyUpdateReq).result =
      .error (.validationError "INVALID_PATIENT_DATA" "Validation errors occurred"
        (detailStrings (validateUpdatePatient tNow dobOnlyUpdateReq))) :=
  ⟨update_consistency_check_request_only.1 tNow stEmptyChildren 1 ageOnlyUpdateReq
     (by decide),
   update_consistency_check_request_only.2.1 tNow stEmptyChildren 1 ageOnlyUpdateReq
     patient1 (by decide) (by decide) (by decide) (by decide),
   update_consistency_check_request_only.2.2 tNow stEmptyChildren 1 dobOnlyUpdateReq
     rfl (by decide)⟩

/-- C1 counterexample: patient 1 exists and owns zero medical history
entries, yet the MedicalHistory list endpoint answers 404, not 200 with an
empty array — the claim fails for the MedicalHistory resource. -/
theorem mh_empty_list_status_counterexample :
    patientRepoGetPatient stEmptyChildren 1 = .ok patient1 ∧
    stEmptyChildren.mhEntries = [] ∧
    getMedicalHistoryEntriesHandler (fun _ => true) stEmptyChildren 1 =
      (404, .errBody) :=
  ⟨by decide, rfl, by decide⟩

/-- C1 amended: for the Lifestyle resource an existing owner with zero
entries yields HTTP 200 with an empty array and an absent owner yields 404;
for the MedicalHistory resource an existing owner with zero entries yields
404 (its handler maps the no-entries error to 404, as its handler tests
assert), the same as an absent owner. -/
theorem list_handler_status_mapping :
    (∀ (a : Int → Bool) (st : Store) (pid : Int) (p : Patient),
        patientRepoGetPatient st pid = .ok p →
        st.lsEntries.filter (fun e => e.patientID == pid) = [] →
        getLifestyleEntriesHandler a st pid = (200, .emptyArray)) ∧
    (∀ (a : Int → Bool) (st : Store) (pid : Int),
        patientRepoGetPatient st pid = .error .patientNotFound →
        getLifestyleEntriesHandler a st pid = (404, .errBody)) ∧
    (∀ (a : Int → Bool) (st : Store) (pid : Int) (p : Patient),
        patientRepoGetPatient st pid = .ok p →
        st.mhEntries.filter (fun e => e.patientID == pid) = [] →
        getMedicalHistoryEntriesHandler a st pid = (404, .errBody)) ∧
    (∀ (a : Int → Bool) (st : Store) (pid : Int),
        patientRepoGetPatient st pid = .error .patientNotFound →
        getMedicalHistoryEntriesHandler a st pid = (404, .errBody)) := by
  refine ⟨?_, ?_, ?_, ?_⟩
  · intro a st pid p hp hfilter
    simp [getLifestyleEntriesHandler, getLifestyleEntries, lifestyleRepoGetEntries,
      DomainError.isError, hp, hfilter]
  · intro a st pid hp
    simp [getLifestyleEntriesHandler, getLifestyleEntries, DomainError.isError, hp]
  · intro a st pid p hp hfilter
    simp [getMedicalHistoryEntriesHandler, getMedicalHistoryEntries, mhRepoGetEntries,
      DomainError.isError, hp, hfilter]
  · intro a st pid hp
    simp [getMedicalHistoryEntriesHandler, getMedicalHistoryEntries,
      DomainError.isError, hp]

/-- C1 witness: on the store where patient 1 exists with zero child entries,
the Lifestyle list answers 200 with the empty array while the MedicalHistory
list answers 404; for the absent owner 99 both answer 404. -/
theorem list_handler_status_mapping_witness :
    getLifestyleEntriesHandler (fun _ => true) stEmptyChildren 1 =
      (200, .emptyArray) ∧
    getMedicalHistoryEntriesHandler (fun _ => true) stEmptyChildren 1 =
      (404, .errBody) ∧
    getLifestyleEntriesHandler (fun _ => true) stEmptyChildren 99 = (404, .errBody) ∧
    getMedicalHistoryEntriesHandler (fun _ => true) stEmptyChildren 99 =
      (404, .errBody) :=
  ⟨list_handler_status_mapping.1 (fun _ => true) stEmptyChildren 1 patient1
     (by decide) rfl,
   list_handler_status_mapping.2.2.1 (fun _ => true) stEmptyChildren 1 patient1
     (by decide) rfl,
   list_handler_status_mapping.2.1 (fun _ => true) stEmptyChildren 99 (by decide),
   list_handler_status_mapping.2.2.2 (fun _ => true) stEmptyChildren 99 (by decide)⟩

end Aidoc
